import Mathlib

/-!
# NutraVue rules engine — shallow embedding

A shallow embedding of the scoring and warning rules engine of the
NutraVue repository, together with theorems settling the frozen claims
about it.  Numbers are modelled as exact rationals (`ℚ`): the JavaScript
source manipulates IEEE doubles, but every constant of the engine is a
short decimal and every claim is about order comparisons and piecewise
linear arithmetic, which agree with the exact-rational reading.
JavaScript `x || 0` on a number is the identity except on `0`/`NaN`, so a
typed rational field models `field || 0` directly; an absent optional
field is modelled as `0`, exactly as the source conflates the two.
`Math.round` and `Number.prototype.toFixed` round ties toward
positive infinity, which is Mathlib's `round`.

Presentation-only constant fields of the source records (colors, emoji,
icons, sounds) and the timestamp metadata are not modelled; no claim
mentions them.  Every other field is carried, including the interpolated
message strings.
-/

namespace NutraVue

/-- Decimal rendering of `q` with `f` digits after the point, rounding
ties toward positive infinity — the ECMAScript `Number.prototype.toFixed`
rule (`n` closest to `q·10^f`, larger `n` on ties). -/
def toFixedStr (f : Nat) (q : ℚ) : String :=
  let n : ℤ := round (q * (10 : ℚ) ^ f)
  let m : Nat := n.natAbs
  let frac := toString (m % 10 ^ f)
  (if n < 0 then "-" else "") ++ toString (m / 10 ^ f) ++
    (if f = 0 then "" else "." ++ String.mk (List.replicate (f - frac.length) ('0')) ++ frac)

/-- Rendering of a number interpolated into a template string.  Agrees
with JavaScript number-to-string on integral values (the only values the
verified properties ever render); other rationals are shown with six
fractional digits. -/
def jsNumStr (q : ℚ) : String :=
  if q.den = 1 then toString q.num else toFixedStr 6 q

/-- `String.prototype.toLowerCase`, character by character. -/
def strLower (s : String) : String := String.mk (s.data.map Char.toLower)

/-- JavaScript `haystack.includes(needle)` on character lists:
`pat` occurs contiguously in the list. -/
def charSeqContains (pat : List Char) : List Char → Bool
  | [] => pat.isEmpty
  | c :: rest => pat.isPrefixOf (c :: rest) || charSeqContains pat rest

/-- JavaScript `s.includes(pat)`. -/
def strContains (s pat : String) : Bool := charSeqContains pat.data s.data

/-- Insert `a` into `l` before the first element `b` with `le a b`. -/
def insertSorted (le : α → α → Bool) (a : α) : List α → List α
  | [] => [a]
  | b :: l => if le a b then a :: b :: l else b :: insertSorted le a l

/-- Stable insertion sort.  ECMAScript requires `Array.prototype.sort`
to be stable, so this models the source's `warnings.sort(...)` and
`penalties.sort(...)` calls: ascending in `le`, ties kept in input
order. -/
def stableSort (le : α → α → Bool) : List α → List α
  | [] => []
  | a :: l => insertSorted le a (stableSort le l)

/-- A raw per-100g nutrition record.  All fields the engines read; a
missing field of the duck-typed source record is the default `0`, which
is how the source's `x || 0` coercions treat it. -/
structure Nutrition where
  calories : ℚ := 0
  sugar : ℚ := 0
  fat : ℚ := 0
  salt : ℚ := 0
  protein : ℚ := 0
  fiber : ℚ := 0
  saturatedFat : ℚ := 0
  carbs : ℚ := 0
  caffeine : ℚ := 0
  iron : ℚ := 0
  calcium : ℚ := 0
deriving DecidableEq

/-! ## Score engine (`calculateHealthScore`, unnamed source part_000) -/

/-- The normalized six-field record built at the top of
`calculateHealthScore`: `Math.max(0, nutrition.field || 0)`. -/
structure NormNutrition where
  calories : ℚ
  sugar : ℚ
  fat : ℚ
  salt : ℚ
  protein : ℚ
  fiber : ℚ
deriving DecidableEq

def normalizeForScore (nutrition : Nutrition) : NormNutrition where
  calories := max 0 nutrition.calories
  sugar := max 0 nutrition.sugar
  fat := max 0 nutrition.fat
  salt := max 0 nutrition.salt
  protein := max 0 nutrition.protein
  fiber := max 0 nutrition.fiber

/-- Options of `calculateHealthScore`.  `gender` and `activityLevel` are
extracted by the source but never used by the scoring algorithm. -/
structure ScoreOptions where
  gender : String := "male"
  isDiabetic : Bool := false
  activityLevel : String := "moderate"
deriving DecidableEq

/-- The `value` field of a penalty/reward entry: a number for nutrient
entries, a string tag for the combination entries. -/
inductive PValue where
  | num (q : ℚ)
  | tag (s : String)
deriving DecidableEq

structure Penalty where
  type : String
  value : PValue
  penalty : ℚ
  message : String
deriving DecidableEq

instance : Inhabited Penalty := ⟨⟨"", PValue.num 0, 0, ""⟩⟩

structure Reward where
  type : String
  value : PValue
  bonus : ℚ
  message : String
deriving DecidableEq

/-- Tiered calorie penalty on `calorieExcess = calories - 200`, capped at 25. -/
def caloriePenaltyOf (calorieExcess : ℚ) : ℚ :=
  min 25 (if calorieExcess ≤ 100 then calorieExcess * 0.05
    else if calorieExcess ≤ 200 then 5 + (calorieExcess - 100) * 0.08
    else 13 + (calorieExcess - 200) * 0.06)

/-- Progressive sugar penalty on `sugarExcess = sugar - 5` (before the
diabetic multiplier and the cap). -/
def sugarPenaltyBase (sugarExcess : ℚ) : ℚ :=
  if sugarExcess ≤ 5 then sugarExcess * 1.5
  else if sugarExcess ≤ 15 then 7.5 + (sugarExcess - 5) * 1.0
  else 17.5 + (sugarExcess - 15) * 0.8

/-- Sugar penalty of the source: base tiers, then `*= 1.5` when
diabetic, then capped at 30. -/
def sugarPenaltyOf (sugar : ℚ) (isDiabetic : Bool) : ℚ :=
  min 30 (if isDiabetic then sugarPenaltyBase (sugar - 5) * 1.5
    else sugarPenaltyBase (sugar - 5))

/-- Tiered fat penalty on `fatExcess = fat - 10`, capped at 20. -/
def fatPenaltyOf (fatExcess : ℚ) : ℚ :=
  min 20 (if fatExcess ≤ 10 then fatExcess * 0.5
    else if fatExcess ≤ 20 then 5 + (fatExcess - 10) * 0.6
    else 11 + (fatExcess - 20) * 0.45)

/-- Tiered salt penalty on `saltExcess = salt - 0.3`, capped at 15. -/
def saltPenaltyOf (saltExcess : ℚ) : ℚ :=
  min 15 (if saltExcess ≤ 0.5 then saltExcess * 8
    else if saltExcess ≤ 1.5 then 4 + (saltExcess - 0.5) * 6
    else 10 + (saltExcess - 1.5) * 3.3)

/-- The penalty list of one scoring pass, in the push order of the
source: calories, sugar, fat, salt, then the two combination checks. -/
def scorePenalties (n : NormNutrition) (isDiabetic : Bool) : List Penalty :=
  (if 200 < n.calories then
    [{ type := "calories", value := PValue.num n.calories,
       penalty := caloriePenaltyOf (n.calories - 200),
       message := "High calorie density: " ++ jsNumStr n.calories ++ " kcal/100g" }]
   else []) ++
  (if 5 < n.sugar then
    [{ type := "sugar", value := PValue.num n.sugar,
       penalty := sugarPenaltyOf n.sugar isDiabetic,
       message := "Sugar content: " ++ toFixedStr 1 n.sugar ++ "g/100g" }]
   else []) ++
  (if 10 < n.fat then
    [{ type := "fat", value := PValue.num n.fat,
       penalty := fatPenaltyOf (n.fat - 10),
       message := "Fat content: " ++ toFixedStr 1 n.fat ++ "g/100g" }]
   else []) ++
  (if 0.3 < n.salt then
    [{ type := "salt", value := PValue.num n.salt,
       penalty := saltPenaltyOf (n.salt - 0.3),
       message := "Salt content: " ++ toFixedStr 2 n.salt ++ "g/100g" }]
   else []) ++
  (if 10 < n.sugar ∧ 20 < n.fat then
    [{ type := "combination", value := PValue.tag "sugar+fat", penalty := 5,
       message := "High sugar & fat combination" }]
   else []) ++
  (if 400 < n.calories ∧ 15 < n.sugar then
    [{ type := "metabolic", value := PValue.tag "calories+sugar", penalty := 5,
       message := "High metabolic impact" }]
   else [])

/-- The reward list of one scoring pass: protein, fiber, low-calorie
bonus, optimal-profile bonus. -/
def scoreRewards (n : NormNutrition) : List Reward :=
  (if 8 ≤ n.protein then
    [{ type := "protein", value := PValue.num n.protein,
       bonus := if 20 ≤ n.protein then 10 else if 15 ≤ n.protein then 8
         else if 10 ≤ n.protein then 5 else 3,
       message := "Good protein: " ++ toFixedStr 1 n.protein ++ "g/100g" }]
   else []) ++
  (if 5 ≤ n.fiber then
    [{ type := "fiber", value := PValue.num n.fiber,
       bonus := if 15 ≤ n.fiber then 10 else if 10 ≤ n.fiber then 8
         else if 7 ≤ n.fiber then 5 else 3,
       message := "High fiber: " ++ toFixedStr 1 n.fiber ++ "g/100g" }]
   else []) ++
  (if n.calories < 100 ∧ 5 ≤ n.protein then
    [{ type := "lowcal", value := PValue.num n.calories, bonus := 5,
       message := "Low calorie, good protein balance" }]
   else []) ++
  (if n.sugar < 5 ∧ n.fat < 10 ∧ n.salt < 0.5 ∧ 10 ≤ n.protein ∧ 5 ≤ n.fiber then
    [{ type := "optimal", value := PValue.tag "perfect", bonus := 5,
       message := "Optimal nutrient balance!" }]
   else [])

/-- Grade and label as a step function of the clamped score. -/
def gradeOf (score : ℤ) : String × String :=
  if 90 ≤ score then ("A+", "Excellent")
  else if 80 ≤ score then ("A", "Very Good")
  else if 70 ≤ score then ("B", "Good")
  else if 60 ≤ score then ("C", "Fair")
  else if 50 ≤ score then ("D", "Poor")
  else ("F", "Very Poor")

/-- `generateRecommendation` of the source.  The 55–69 branch sorts the
caller's `penalties` array in place (descending by magnitude, JavaScript
`Array.prototype.sort` being stable); the returned pair carries the
possibly-mutated list next to the text, and `calculateHealthScore` uses
that list as the `penalties` field of its result, mirroring the aliasing
of the source.  `nutrition` and `rewards` are received but unused, as in
the source. -/
def generateRecommendation (score : ℤ) (_nutrition : NormNutrition)
    (penalties : List Penalty) (_rewards : List Reward) (isDiabetic : Bool) :
    String × List Penalty :=
  if 85 ≤ score then
    ("Excellent choice! This food has an outstanding nutritional profile. Perfect for a healthy diet.",
     penalties)
  else if 70 ≤ score then
    ("Good choice! A nutritious option that fits well in a balanced diet. Enjoy in moderation.",
     penalties)
  else if 55 ≤ score then
    let sorted := stableSort (fun a b => decide (b.penalty ≤ a.penalty)) penalties
    ("Fair choice. Watch out for " ++
       String.intercalate (" and ") ((sorted.take 2).map (fun p => p.type)) ++
       " content. Consider healthier alternatives when possible.",
     sorted)
  else
    ("⚠️ Not recommended for regular consumption. High in " ++
       String.intercalate (", ")
         ((penalties.filter (fun p => decide (10 < p.penalty))).map (fun p => p.type)) ++
       ". " ++
       (if isDiabetic then "Not suitable for diabetic diet."
        else "Choose healthier alternatives."),
     penalties)

/-- The diabetic-specific one-line warning of the score engine: a pure
function of sugar (and calories in the safe band). -/
def generateDiabeticWarning (n : NormNutrition) (isDiabetic : Bool) : Option String :=
  if !isDiabetic then none
  else if 15 < n.sugar then
    some ("🚫 CRITICAL: Very high sugar content. May cause severe blood glucose spike. Avoid completely.")
  else if 10 < n.sugar then
    some ("⚠️ WARNING: High sugar content. Will significantly raise blood glucose levels. Not recommended.")
  else if 5 < n.sugar then
    some ("⚡ CAUTION: Moderate sugar content. Monitor blood glucose if consumed. Limit portion size.")
  else if n.sugar < 3 ∧ n.calories < 200 then
    some ("✅ SAFE: Diabetic-friendly option. Low sugar and moderate calories.")
  else none

structure ScoreResult where
  score : ℤ
  grade : String
  label : String
  recommendation : String
  diabeticWarning : Option String
  penalties : List Penalty
  rewards : List Reward
  nutritionProfile : NormNutrition
  totalPenalties : ℚ
  totalRewards : ℚ
deriving DecidableEq

/-- The running score after all penalty subtractions and reward
additions: `100 - Σ penalties + Σ rewards`. -/
def rawScoreOf (n : NormNutrition) (isDiabetic : Bool) : ℚ :=
  100 - ((scorePenalties n isDiabetic).map (fun p => p.penalty)).sum
    + ((scoreRewards n).map (fun r => r.bonus)).sum

/-- `Math.max(0, Math.min(100, Math.round(score)))`. -/
def clampedScoreOf (n : NormNutrition) (isDiabetic : Bool) : ℤ :=
  max 0 (min 100 (round (rawScoreOf n isDiabetic)))

/-- `calculateHealthScore`: start at 100, subtract the penalties, add
the rewards, clamp to `[0, 100]` after rounding to the nearest integer,
then derive grade and recommendation texts. -/
def calculateHealthScore (nutrition : Nutrition) (options : ScoreOptions) : ScoreResult :=
  let n := normalizeForScore nutrition
  let penalties := scorePenalties n options.isDiabetic
  let rewards := scoreRewards n
  let score : ℤ := clampedScoreOf n options.isDiabetic
  let recPair := generateRecommendation score n penalties rewards options.isDiabetic
  { score := score
    grade := (gradeOf score).1
    label := (gradeOf score).2
    recommendation := recPair.1
    diabeticWarning := generateDiabeticWarning n options.isDiabetic
    penalties := recPair.2
    rewards := rewards
    nutritionProfile := n
    totalPenalties := (penalties.map (fun p => p.penalty)).sum
    totalRewards := (rewards.map (fun r => r.bonus)).sum }

/-- The sugar penalty exactly as the specification words it: a
piecewise-linear function of `excess = sugar - 5` with rate 1.5 on the
first 5 g of excess, 1.0 on the next 10 g and 0.8 beyond, multiplied by
1.5 for diabetics, then capped at 30.  Compared against the source's
`sugarPenaltyOf` in the claim C2 theorem. -/
def sugarPenaltySpec (sugar : ℚ) (isDiabetic : Bool) : ℚ :=
  min 30 ((if isDiabetic then 1.5 else 1) *
    (1.5 * min (sugar - 5) 5 + 1.0 * min (max (sugar - 5 - 5) 0) 10 +
      0.8 * max (sugar - 5 - 15) 0))

/-! ## Daily value engine (`daily-value-calculator.js`) -/

/-- One row of the `DAILY_VALUES` reference-intake table. -/
structure DVTable where
  calories : ℚ
  sugar : ℚ
  fat : ℚ
  saturatedFat : ℚ
  salt : ℚ
  sodium : ℚ
  protein : ℚ
  fiber : ℚ
  carbs : ℚ
  cholesterol : ℚ
deriving DecidableEq

def dvMale : DVTable :=
  ⟨2500, 36, 78, 24, 6, 2400, 56, 38, 340, 300⟩

def dvFemale : DVTable :=
  ⟨2000, 25, 70, 20, 6, 2400, 46, 25, 275, 300⟩

def dvPregnant : DVTable :=
  ⟨2200, 25, 73, 22, 6, 2400, 71, 28, 302, 300⟩

def dvAthleteMale : DVTable :=
  ⟨3500, 50, 117, 35, 8, 3200, 140, 45, 480, 300⟩

def dvAthleteFemale : DVTable :=
  ⟨2800, 40, 93, 28, 7, 2800, 112, 35, 385, 300⟩

/-- Options of `calculateDailyValue`.  `servingSize` is destructured by
the source but never used. -/
structure DVOptions where
  gender : String := "male"
  profile : String := "standard"
  servingSize : ℚ := 100
deriving DecidableEq

/-- The six nutrient names `calculateAllDailyValues` feeds to
`calculateDailyValue`; the claims are scoped to these. -/
inductive NutrientName where
  | calories | sugar | fat | salt | protein | fiber
deriving DecidableEq

/-- Reference-table choice: athlete by gender (unknown gender falls back
to athlete-male), pregnant, else by gender (unknown gender falls back to
male), mirroring the `||` fallbacks of the source. -/
def dvReferenceFor (opts : DVOptions) : DVTable :=
  if opts.profile == "athlete" then
    if opts.gender == "male" then dvAthleteMale
    else if opts.gender == "female" then dvAthleteFemale
    else dvAthleteMale
  else if opts.profile == "pregnant" then dvPregnant
  else
    if opts.gender == "male" then dvMale
    else if opts.gender == "female" then dvFemale
    else dvMale

/-- `dvReference[nutrient]` for the six nutrient names (all present in
every table, so the `|| 100` fallback of the source never fires). -/
def dvTargetOf (t : DVTable) : NutrientName → ℚ
  | NutrientName.calories => t.calories
  | NutrientName.sugar => t.sugar
  | NutrientName.fat => t.fat
  | NutrientName.salt => t.salt
  | NutrientName.protein => t.protein
  | NutrientName.fiber => t.fiber

/-- `positiveNutrients.includes(nutrient)`: protein and fiber are the
"higher is better" nutrients. -/
def isPositiveNutrient : NutrientName → Bool
  | NutrientName.protein => true
  | NutrientName.fiber => true
  | _ => false

def nutrientNameStr : NutrientName → String
  | NutrientName.calories => "calories"
  | NutrientName.sugar => "sugar"
  | NutrientName.fat => "fat"
  | NutrientName.salt => "salt"
  | NutrientName.protein => "protein"
  | NutrientName.fiber => "fiber"

/-- Category information of `categorizeDailyValue` (color/icon
presentation fields omitted). -/
structure DVCategoryInfo where
  name : String
  description : String
deriving DecidableEq

/-- `categorizeDailyValue`: thresholds on the rounded percentage,
bifurcated by nutrient polarity. -/
def categorizeDailyValue (percentage : ℤ) (nutrient : NutrientName) : DVCategoryInfo :=
  if isPositiveNutrient nutrient then
    if 40 ≤ percentage then ⟨"Excellent", "Outstanding source"⟩
    else if 20 ≤ percentage then ⟨"High", "Good source"⟩
    else if 10 ≤ percentage then ⟨"Moderate", "Contains some"⟩
    else ⟨"Low", "Low source"⟩
  else
    if 50 ≤ percentage then ⟨"Very High", "Excessive amount"⟩
    else if 30 ≤ percentage then ⟨"High", "High amount"⟩
    else if 15 ≤ percentage then ⟨"Moderate", "Moderate amount"⟩
    else if 5 ≤ percentage then ⟨"Low", "Low amount"⟩
    else ⟨"Very Low", "Minimal amount"⟩

/-- `generateDVRecommendation`, keyed by percentage and polarity. -/
def generateDVRecommendation (percentage : ℤ) (nutrient : NutrientName) : String :=
  let nm := nutrientNameStr nutrient
  if isPositiveNutrient nutrient then
    if 40 ≤ percentage then "Excellent " ++ nm ++ " content! Great for daily intake."
    else if 20 ≤ percentage then "Good source of " ++ nm ++ ". Contributes well to daily needs."
    else if 10 ≤ percentage then "Provides some " ++ nm ++ ". Consider supplementing from other sources."
    else "Low in " ++ nm ++ ". Look for additional sources throughout the day."
  else
    if 50 ≤ percentage then "Very high in " ++ nm ++ ". Consume sparingly or avoid."
    else if 30 ≤ percentage then "High in " ++ nm ++ ". Limit consumption and balance with other foods."
    else if 15 ≤ percentage then "Moderate " ++ nm ++ " content. Monitor total daily intake."
    else "Low in " ++ nm ++ ". Good for frequent consumption."

structure DVEntry where
  value : ℚ
  percentage : ℤ
  target : ℚ
  category : String
  description : String
  recommendation : String
deriving DecidableEq

/-- `calculateDailyValue`: percentage of the profile/gender reference
intake, rounded to the nearest integer, then categorized. -/
def calculateDailyValue (value : ℚ) (nutrient : NutrientName) (options : DVOptions) : DVEntry :=
  let targetDV := dvTargetOf (dvReferenceFor options) nutrient
  let percentage : ℤ := round (value / targetDV * 100)
  let category := categorizeDailyValue percentage nutrient
  { value := value
    percentage := percentage
    target := targetDV
    category := category.name
    description := category.description
    recommendation := generateDVRecommendation percentage nutrient }

/-- Rank of a beneficial-nutrient category name in the order the
specification states: Low < Moderate < High < Excellent. -/
def posCategoryRank : String → ℕ
  | "Low" => 0
  | "Moderate" => 1
  | "High" => 2
  | "Excellent" => 3
  | _ => 0

/-- Severity rank of a limit-nutrient category name: Very Low < Low <
Moderate < High < Very High. -/
def negCategoryRank : String → ℕ
  | "Very Low" => 0
  | "Low" => 1
  | "Moderate" => 2
  | "High" => 3
  | "Very High" => 4
  | _ => 0

/-- Category rank keyed by the nutrient's polarity, the order C7 is
stated in. -/
def dvCategoryRank (nutrient : NutrientName) (name : String) : ℕ :=
  if isPositiveNutrient nutrient then posCategoryRank name else negCategoryRank name

/-! ## Diabetic warning engine (`diabetic-warnings.js`) -/

/-- A severity constant: level tag and ordering priority
(color/icon/sound presentation fields omitted). -/
structure Severity where
  level : String
  priority : Nat
deriving DecidableEq

def severityCritical : Severity := ⟨"critical", 1⟩
def severityHigh : Severity := ⟨"high", 2⟩
def severityModerate : Severity := ⟨"moderate", 3⟩
def severityLow : Severity := ⟨"low", 4⟩
def severitySafe : Severity := ⟨"safe", 5⟩

structure DiabeticOptions where
  isDiabetic : Bool := false
  diabeticType : String := "type2"
deriving DecidableEq

/-- A diabetic warning entry: the spread severity fields plus the
entry-specific fields of the source object. -/
structure DWarning where
  level : String
  priority : Nat
  type : String
  title : String
  message : String
  detail : String
  impact : Option String := none
  action : String
  glycemicImpact : Option String := none
deriving DecidableEq

/-- Carbohydrate value used by the engine:
`nutrition.carbs || (nutrition.sugar || 0)` — the sugar value stands in
when the carbs field is absent (`0`). -/
def carbsOf (n : Nutrition) : ℚ :=
  if n.carbs = 0 then n.sugar else n.carbs

/-- The sugar-band entry: a five-branch `else if` chain (note values in
`(3, 5]` fall through every branch and produce no entry). -/
def sugarBandWarnings (n : Nutrition) : List DWarning :=
  if 20 < n.sugar then
    [{ level := "critical", priority := 1, type := "sugar_critical",
       title := "CRITICAL SUGAR LEVEL",
       message := "Extremely high sugar content: " ++ toFixedStr 1 n.sugar ++ "g per 100g",
       detail := "May cause severe blood glucose spike. Avoid completely.",
       impact := some ("Blood glucose may rise by 150-200+ mg/dL"),
       action := "DO NOT CONSUME - Consult healthcare provider",
       glycemicImpact := some ("very_high") }]
  else if 15 < n.sugar then
    [{ level := "high", priority := 2, type := "sugar_high",
       title := "HIGH SUGAR WARNING",
       message := "Very high sugar content: " ++ toFixedStr 1 n.sugar ++ "g per 100g",
       detail := "Will significantly raise blood glucose levels.",
       impact := some ("Blood glucose may rise by 100-150 mg/dL"),
       action := "Avoid or consume minimal amount with insulin adjustment",
       glycemicImpact := some ("high") }]
  else if 10 < n.sugar then
    [{ level := "moderate", priority := 3, type := "sugar_moderate",
       title := "MODERATE SUGAR ALERT",
       message := "Elevated sugar content: " ++ toFixedStr 1 n.sugar ++ "g per 100g",
       detail := "Will raise blood glucose levels noticeably.",
       impact := some ("Blood glucose may rise by 50-100 mg/dL"),
       action := "Limit portion size, monitor glucose closely",
       glycemicImpact := some ("moderate") }]
  else if 5 < n.sugar then
    [{ level := "low", priority := 4, type := "sugar_low",
       title := "Sugar Content Notice",
       message := "Moderate sugar: " ++ toFixedStr 1 n.sugar ++ "g per 100g",
       detail := "May cause mild blood glucose increase.",
       impact := some ("Blood glucose may rise by 20-50 mg/dL"),
       action := "Consume in small portions, pair with protein/fiber",
       glycemicImpact := some ("low") }]
  else if n.sugar ≤ 3 then
    [{ level := "safe", priority := 5, type := "sugar_safe",
       title := "Low Sugar - Diabetic Friendly",
       message := "Low sugar content: " ++ toFixedStr 1 n.sugar ++ "g per 100g",
       detail := "Minimal impact on blood glucose levels.",
       impact := some ("Blood glucose rise: <20 mg/dL"),
       action := "Safe for consumption in normal portions",
       glycemicImpact := some ("very_low") }]
  else []

def carbWarning (n : Nutrition) : List DWarning :=
  if 50 < carbsOf n then
    [{ level := "high", priority := 2, type := "carb_high",
       title := "High Carbohydrate Content",
       message := "Carbohydrates: " ++ toFixedStr 1 (carbsOf n) ++ "g per 100g",
       detail := "High carb foods require careful glucose monitoring.",
       action := "Calculate insulin dose if on insulin therapy" }]
  else []

def comboWarning (n : Nutrition) : List DWarning :=
  if 20 < n.fat ∧ 10 < n.sugar then
    [{ level := "critical", priority := 1, type := "combination_danger",
       title := "DANGEROUS COMBINATION",
       message := "High fat + high sugar detected",
       detail := "This combination delays glucose absorption and causes prolonged elevated blood sugar.",
       impact := some ("Extended blood glucose elevation (4-6 hours)"),
       action := "Avoid completely - Very high risk for diabetics" }]
  else []

def calorieWarning (n : Nutrition) : List DWarning :=
  if 500 < n.calories then
    [{ level := "moderate", priority := 3, type := "calorie_high",
       title := "Very High Calorie Density",
       message := jsNumStr n.calories ++ " kcal per 100g - Ultra-processed food",
       detail := "High calorie density may affect insulin sensitivity.",
       action := "Consume very small portions if at all" }]
  else []

def saltWarning (n : Nutrition) : List DWarning :=
  if 1.5 < n.salt then
    [{ level := "moderate", priority := 3, type := "salt_high",
       title := "High Salt Content",
       message := "Salt: " ++ toFixedStr 2 n.salt ++ "g per 100g",
       detail := "Diabetics have higher risk of hypertension. High salt intake increases cardiovascular risk.",
       action := "Choose low-sodium alternatives" }]
  else []

def fiberPositive (n : Nutrition) : List DWarning :=
  if 8 ≤ n.fiber ∧ n.sugar < 5 then
    [{ level := "safe", priority := 5, type := "fiber_good",
       title := "✨ High Fiber Benefit",
       message := "Excellent fiber content: " ++ toFixedStr 1 n.fiber ++ "g per 100g",
       detail := "Fiber helps slow glucose absorption and improve blood sugar control.",
       action := "Great choice for diabetic diet!" }]
  else []

def proteinPositive (n : Nutrition) : List DWarning :=
  if 15 ≤ n.protein ∧ n.sugar < 5 then
    [{ level := "safe", priority := 5, type := "protein_good",
       title := "✨ High Protein Benefit",
       message := "Good protein content: " ++ toFixedStr 1 n.protein ++ "g per 100g",
       detail := "Protein helps stabilize blood sugar levels.",
       action := "Excellent choice for blood sugar management" }]
  else []

def idealPositive (n : Nutrition) : List DWarning :=
  if n.sugar < 3 ∧ n.calories < 200 ∧ 5 ≤ n.fiber then
    [{ level := "safe", priority := 5, type := "ideal_diabetic",
       title := "🌟 IDEAL DIABETIC FOOD",
       message := "Perfect nutritional profile for diabetes management",
       detail := "Low sugar, moderate calories, good fiber content.",
       action := "Highly recommended for regular consumption" }]
  else []

def type1Warning (n : Nutrition) (diabeticType : String) : List DWarning :=
  if diabeticType == "type1" ∧ 10 < n.sugar then
    [{ level := "high", priority := 2, type := "type1_specific",
       title := "Type 1 Diabetes Alert",
       message := "Requires precise insulin calculation",
       detail := "Estimated carbs: " ++ toFixedStr 0 (carbsOf n) ++ "g - Consult carb counting guide",
       action := "Calculate bolus insulin dose before consuming" }]
  else []

/-- The warning list in the push order of the source, before sorting. -/
def diabeticWarningsUnsorted (n : Nutrition) (diabeticType : String) : List DWarning :=
  sugarBandWarnings n ++ carbWarning n ++ comboWarning n ++ calorieWarning n ++
    saltWarning n ++ fiberPositive n ++ proteinPositive n ++ idealPositive n ++
    type1Warning n diabeticType

/-- `generateDiabeticWarnings`: empty for non-diabetic users, otherwise
the collected entries stably sorted ascending by severity priority. -/
def generateDiabeticWarnings (nutrition : Nutrition) (options : DiabeticOptions) : List DWarning :=
  if !options.isDiabetic then []
  else stableSort (fun a b => decide (a.priority ≤ b.priority))
    (diabeticWarningsUnsorted nutrition options.diabeticType)

/-- Result of `assessDiabeticRisk`.  The non-diabetic early return of
the source carries only `risk` and `score`; the missing fields are
`none`. -/
structure RiskResult where
  risk : String
  score : ℚ
  recommendation : Option String := none
  severity : Option Severity := none
deriving DecidableEq

/-- `DIABETIC_SEVERITY[risk.toUpperCase()] || DIABETIC_SEVERITY.LOW`. -/
def severityOfLevel (risk : String) : Severity :=
  if risk == "critical" then severityCritical
  else if risk == "high" then severityHigh
  else if risk == "moderate" then severityModerate
  else if risk == "low" then severityLow
  else if risk == "safe" then severitySafe
  else severityLow

/-- The risk score accumulation of `assessDiabeticRisk`. -/
def diabeticRiskScore (sugar fat : ℚ) : ℚ :=
  (if 20 < sugar then 50 else if 15 < sugar then 35
    else if 10 < sugar then 20 else if 5 < sugar then 10 else 0) +
  (if 30 < fat then 20 else if 20 < fat then 10 else 0) +
  (if 10 < sugar ∧ 20 < fat then 20 else 0)

/-- The risk-level chain of `assessDiabeticRisk`: label and
recommendation text from the risk score. -/
def riskBandOf (riskScore : ℚ) : String × String :=
  if 70 ≤ riskScore then ("critical", "Avoid completely - High risk of severe glucose spike")
  else if 40 ≤ riskScore then ("high", "Not recommended - Significant glucose impact expected")
  else if 20 ≤ riskScore then ("moderate", "Consume cautiously - Monitor glucose closely")
  else if 10 ≤ riskScore then ("low", "Acceptable in small portions")
  else ("safe", "Safe for diabetic consumption")

/-- `assessDiabeticRisk`: an independent 0–100 risk score from sugar and
fat thresholds, mapped to one of five risk labels. -/
def assessDiabeticRisk (nutrition : Nutrition) (isDiabetic : Bool) : RiskResult :=
  if !isDiabetic then { risk := "not_applicable", score := 0 }
  else
    let riskScore := diabeticRiskScore nutrition.sugar nutrition.fat
    let rr := riskBandOf riskScore
    { risk := rr.1
      score := riskScore
      recommendation := some rr.2
      severity := some (severityOfLevel rr.1) }

/-! ## Population safety engine (`Evaluator.js` with the limit tables of
`Rule.js`).  The target group is an enumeration and the nutrition record
a typed structure, so the two `InsufficientData` early returns of the
source (non-object nutrition, unknown group string) are unreachable and
not modelled. -/

inductive TargetGroup where
  | pregnant | child
deriving DecidableEq

/-- The product metadata the evaluator scans.  A missing ingredients or
name string is the empty string (falsy, like the source's `|| ''`);
`nova` is the NOVA processing group (`product.nova || 0`). -/
structure ProductData where
  ingredients : String := ""
  name : String := ""
  allergens : List String := []
  nova : ℚ := 0
deriving DecidableEq

/-- One three-tier nutrient limit of `Rule.js` (`avoid` is carried but,
as in the source's `evaluateNutrient`, never read). -/
structure NutrientLimits where
  safe : ℚ
  moderate : ℚ
  avoid : ℚ
  reason : String
deriving DecidableEq

def pregnantSugarLimits : NutrientLimits :=
  ⟨3, 5, 10, "Excess sugar increases gestational diabetes risk"⟩

def pregnantSaltLimits : NutrientLimits :=
  ⟨0.2, 0.3, 0.5, "High salt can cause swelling and high blood pressure"⟩

def pregnantCaffeineLimits : NutrientLimits :=
  ⟨0, 20, 50, "Caffeine crosses placenta, limit to 200mg/day total"⟩

def pregnantSatFatLimits : NutrientLimits :=
  ⟨3, 5, 8, "High saturated fat affects cardiovascular health"⟩

def childSugarLimits : NutrientLimits :=
  ⟨2, 3, 5, "Excess sugar causes tooth decay and unhealthy eating habits"⟩

def childSaltLimits : NutrientLimits :=
  ⟨0.1, 0.2, 0.3, "Young kidneys cannot process excess sodium"⟩

def childFatLimits : NutrientLimits :=
  ⟨8, 10, 15, "Excess fat can lead to childhood obesity"⟩

def childSatFatLimits : NutrientLimits :=
  ⟨2, 3, 5, "High saturated fat affects heart health development"⟩

def sugarLimitsFor : TargetGroup → NutrientLimits
  | TargetGroup.pregnant => pregnantSugarLimits
  | TargetGroup.child => childSugarLimits

def saltLimitsFor : TargetGroup → NutrientLimits
  | TargetGroup.pregnant => pregnantSaltLimits
  | TargetGroup.child => childSaltLimits

def satFatLimitsFor : TargetGroup → NutrientLimits
  | TargetGroup.pregnant => pregnantSatFatLimits
  | TargetGroup.child => childSatFatLimits

/-- `PREGNANT_LIMITS.avoidIngredients` / `CHILD_LIMITS.strictlyAvoided`:
the per-group denylists scanned against ingredients text and name. -/
def avoidListFor : TargetGroup → List String
  | TargetGroup.pregnant =>
    ["aspartame", "sucralose", "saccharin", "acesulfame",
     "msg", "monosodium glutamate", "sodium benzoate",
     "raw milk", "unpasteurized", "raw egg",
     "retinol", "retinyl palmitate", "liver",
     "alcohol", "ethanol", "wine", "beer",
     "shark", "swordfish", "king mackerel", "tilefish"]
  | TargetGroup.child =>
    ["caffeine", "coffee", "tea", "energy drink",
     "artificial sweetener", "diet", "zero sugar",
     "alcohol", "raw honey",
     "whole nuts", "popcorn",
     "high fructose corn syrup"]

def childCautionIngredients : List String :=
  ["chocolate", "cocoa",
   "artificial color", "artificial flavour",
   "preservative", "e-number",
   "hydrogenated", "partially hydrogenated",
   "palm oil", "corn syrup"]

/-- Result of `evaluateNutrient`: severity increment plus an optional
warning or positive string. -/
structure NutrientEval where
  severity : ℚ
  warning : Option String := none
  positive : Option String := none
deriving DecidableEq

/-- `evaluateNutrient`: `safe` tier is a positive with severity 0,
`moderate` tier a warning with severity 20, beyond a warning with
severity 40. -/
def evaluateNutrient (value : ℚ) (limits : NutrientLimits) (nutrientName : String) : NutrientEval :=
  if value ≤ limits.safe then
    { severity := 0,
      positive := some ("Low " ++ nutrientName ++ " (" ++ toFixedStr 1 value ++ "g) - excellent") }
  else if value ≤ limits.moderate then
    { severity := 20,
      warning := some ("Moderate " ++ nutrientName ++ " (" ++ toFixedStr 1 value ++ "g) - " ++ limits.reason) }
  else
    { severity := 40,
      warning := some ("High " ++ nutrientName ++ " (" ++ toFixedStr 1 value ++ "g) - " ++ limits.reason) }

/-- `checkStrictlyAvoided`, as the first matching term of the group's
denylist (lower-cased substring search over ingredients text and
product name), or `none`. -/
def findStrictlyAvoided (productData : ProductData) (targetGroup : TargetGroup) : Option String :=
  (avoidListFor targetGroup).find? (fun avoided =>
    strContains (strLower productData.ingredients) (strLower avoided) ||
      strContains (strLower productData.name) (strLower avoided))

def groupShortName : TargetGroup → String
  | TargetGroup.pregnant => "pregnancy"
  | TargetGroup.child => "young children"

def groupLongName : TargetGroup → String
  | TargetGroup.pregnant => "pregnant women"
  | TargetGroup.child => "children under 6"

def strictAvoidMessage (targetGroup : TargetGroup) (avoided : String) : String :=
  "Contains " ++ avoided ++ " - strictly not recommended for " ++ groupShortName targetGroup

def strictAvoidExplanation (targetGroup : TargetGroup) : String :=
  "This product contains ingredients that should be avoided by " ++
    groupLongName targetGroup ++ " due to safety concerns."

/-- `detectCaffeineFromIngredients`: keyword-derived caffeine estimate
(empty ingredients text is falsy and yields 0). -/
def detectCaffeineFromIngredients (ingredients : String) : ℚ :=
  if ingredients == "" then 0
  else
    let low := strLower ingredients
    if strContains low ("coffee") then 80
    else if strContains low ("espresso") then 120
    else if strContains low ("tea") || strContains low ("green tea") then 30
    else if strContains low ("chocolate") || strContains low ("cocoa") then 10
    else if strContains low ("energy") then 100
    else 0

/-- `checkEssentialNutrients` against `requiredNutrients` (pregnant) or
`essentialNutrients` (child).  Optional thresholds model the `||`
defaults of the source (`fiber || 3`, `iron || 0.001`,
`calcium || 0.1`); the `x && x >= t` guards are "field is truthy",
i.e. nonzero. -/
structure RequiredNutrients where
  protein : ℚ
  fiber : Option ℚ := none
  iron : Option ℚ := none
  calcium : Option ℚ := none
deriving DecidableEq

def pregnantRequiredNutrients : RequiredNutrients :=
  { protein := 5, fiber := some 3, iron := some 0.002, calcium := some 0.1 }

def childEssentialNutrients : RequiredNutrients :=
  { protein := 3, iron := some 0.001, calcium := some 0.15 }

def checkEssentialNutrients (nutrition : Nutrition) (required : RequiredNutrients) : List String :=
  (if required.protein ≤ nutrition.protein then
    ["Good protein source (" ++ toFixedStr 1 nutrition.protein ++ "g)"] else []) ++
  (if nutrition.fiber ≠ 0 ∧ required.fiber.getD 3 ≤ nutrition.fiber then
    ["High fiber (" ++ toFixedStr 1 nutrition.fiber ++ "g)"] else []) ++
  (if nutrition.iron ≠ 0 ∧ required.iron.getD 0.001 ≤ nutrition.iron then
    ["Contains iron - important for development"] else []) ++
  (if nutrition.calcium ≠ 0 ∧ required.calcium.getD 0.1 ≤ nutrition.calcium then
    ["Good calcium source - supports bone health"] else [])

/-- `checkCautionIngredients`: the caution terms found in the
ingredients text, in list order. -/
def checkCautionIngredients (ingredients : String) (cautionList : List String) : List String :=
  cautionList.filter (fun item => strContains (strLower ingredients) (strLower item))

/-- The `limits.warnings` trigger table, in `Object.entries` (insertion)
order, dispatched exactly as the source's key-name sniffing does:
pregnant — highlyProcessed, lowProtein, highCalories,
artificialAdditives; child — choking, allergen, lowNutrients,
ultraProcessed.  Each triggered entry pushes its message and adds 15. -/
def triggeredWarningMessages (nutrition : Nutrition) (productData : ProductData) :
    TargetGroup → List String
  | TargetGroup.pregnant =>
    (if 4 ≤ productData.nova then
      ["Ultra-processed foods may lack essential nutrients"] else []) ++
    (if nutrition.protein < 2 then
      ["Low protein content - ensure adequate protein from other sources"] else []) ++
    (if 400 < nutrition.calories then
      ["Very high calorie density - monitor portion sizes"] else []) ++
    (if productData.ingredients ≠ "" ∧
        (["e102", "e110", "e122", "e129", "e951", "e952"].any
          (fun code => strContains (strLower productData.ingredients) code)) then
      ["Contains artificial additives - choose natural alternatives when possible"] else [])
  | TargetGroup.child =>
    (if ["whole nut", "popcorn", "hard candy", "gum", "marshmallow"].any
        (fun item => strContains (strLower productData.name) item) then
      ["⚠️ CHOKING HAZARD - Not safe for children under 4 years"] else []) ++
    (if productData.allergens.any
        (fun a => ["peanuts", "tree nuts", "shellfish", "fish"].contains a) then
      ["Contains common allergens - introduce carefully and monitor for reactions"] else []) ++
    (if nutrition.protein < 2 ∧ nutrition.fiber < 1 then
      ["Low nutritional value - not ideal for growing children"] else []) ++
    (if 4 ≤ productData.nova then
      ["Ultra-processed food - choose whole foods when possible"] else [])

/-- `generateExplanation`, templated by suitability category. -/
def generateExplanation (category : String) (targetGroup : TargetGroup)
    (warnings positives : List String) : String :=
  let groupName := groupShortName targetGroup
  if category == "good" then
    "This product appears suitable for " ++ groupName ++ ". " ++
      (if positives.length ≠ 0 then
        "Positive aspects: " ++ String.intercalate ("; ") (positives.take 2) ++ ". " else "") ++
      (if warnings.length ≠ 0 then "Minor considerations: " ++ warnings.headI else "")
  else if category == "moderate" then
    "This product can be consumed occasionally by " ++ groupName ++
      ", but should not be a regular choice. " ++
      (if warnings.length ≠ 0 then
        "Concerns: " ++ String.intercalate ("; ") (warnings.take 2) ++ ". " else "") ++
      "Monitor portion sizes and frequency."
  else
    "This product is not recommended for " ++ groupName ++ ". " ++
      (if warnings.length ≠ 0 then
        "Main concerns: " ++ String.intercalate ("; ") (warnings.take 3) ++ ". " else "") ++
      "Choose alternative products better suited for this population."

/-- The evaluation result (emoji/color/metadata presentation fields
omitted).  `severityScore` is `none` exactly where the source returns
`null`. -/
structure PopulationEvaluation where
  suitability : String
  warnings : List String
  positives : List String
  explanation : String
  severityScore : Option ℚ
  targetGroup : TargetGroup
deriving DecidableEq

/-- `createAvoidResult`: the short-circuit result for critical
ingredient violations. -/
def createAvoidResult (targetGroup : TargetGroup) (warnings : List String)
    (explanation : String) : PopulationEvaluation :=
  { suitability := "Avoid"
    warnings := warnings
    positives := []
    explanation := explanation
    severityScore := some 100
    targetGroup := targetGroup }

/-- `evaluateFoodForPopulation` past the strict-ingredient check: the
accumulated severity score, warnings and positives of steps 2–10 of the
source. -/
def accumulatedEvaluation (nutrition : Nutrition) (targetGroup : TargetGroup)
    (productData : ProductData) : ℚ × List String × List String :=
  let sugarResult := evaluateNutrient nutrition.sugar (sugarLimitsFor targetGroup) ("sugar")
  let saltResult := evaluateNutrient nutrition.salt (saltLimitsFor targetGroup) ("salt")
  let satFatResult := evaluateNutrient nutrition.saturatedFat (satFatLimitsFor targetGroup)
    ("saturated fat")
  let fatResult := evaluateNutrient nutrition.fat childFatLimits ("fat")
  let caffeineAmount := if nutrition.caffeine = 0 then
      detectCaffeineFromIngredients productData.ingredients
    else nutrition.caffeine
  let caffeineTriggered := targetGroup = TargetGroup.pregnant ∧ 20 < caffeineAmount
  let cautionFound := if targetGroup = TargetGroup.child ∧ productData.ingredients ≠ "" then
      checkCautionIngredients productData.ingredients childCautionIngredients
    else []
  let triggered := triggeredWarningMessages nutrition productData targetGroup
  let severityScore :=
    sugarResult.severity + saltResult.severity + satFatResult.severity +
      (if targetGroup = TargetGroup.child then fatResult.severity else 0) +
      (if caffeineTriggered then 50 else 0) +
      (triggered.length : ℚ) * 15 +
      (if cautionFound.length ≠ 0 then 10 else 0)
  let warnings :=
    sugarResult.warning.toList ++ saltResult.warning.toList ++ satFatResult.warning.toList ++
      (if targetGroup = TargetGroup.child then fatResult.warning.toList else []) ++
      (if caffeineTriggered then
        ["Contains caffeine (" ++ jsNumStr caffeineAmount ++ "mg) - not recommended during pregnancy"]
       else []) ++
      triggered ++
      (if cautionFound.length ≠ 0 then
        ["Contains: " ++ String.intercalate (", ") cautionFound ++ " - limit consumption"] else [])
  let positives :=
    sugarResult.positive.toList ++ saltResult.positive.toList ++
      (match targetGroup with
        | TargetGroup.pregnant => checkEssentialNutrients nutrition pregnantRequiredNutrients
        | TargetGroup.child => checkEssentialNutrients nutrition childEssentialNutrients) ++
      (if 3 ≤ nutrition.fiber then
        ["Good fiber content (" ++ toFixedStr 1 nutrition.fiber ++ "g) - supports digestive health"]
       else [])
  (severityScore, warnings, positives)

/-- `evaluateFoodForPopulation`: the strict denylist scan short-circuits
to `Avoid` with severity 100; otherwise the accumulated severity score
is classified (≥80 Avoid, ≥40 Moderate, else Good Choice). -/
def evaluateFoodForPopulation (nutrition : Nutrition) (targetGroup : TargetGroup)
    (productData : ProductData) : PopulationEvaluation :=
  match findStrictlyAvoided productData targetGroup with
  | some avoided =>
    createAvoidResult targetGroup [strictAvoidMessage targetGroup avoided]
      (strictAvoidExplanation targetGroup)
  | none =>
    let acc := accumulatedEvaluation nutrition targetGroup productData
    let severityScore := acc.1
    let warnings := acc.2.1
    let positives := acc.2.2
    if 80 ≤ severityScore then
      { suitability := "Avoid", warnings := warnings, positives := positives,
        explanation := generateExplanation ("avoid") targetGroup warnings positives,
        severityScore := some severityScore, targetGroup := targetGroup }
    else if 40 ≤ severityScore then
      { suitability := "Moderate", warnings := warnings, positives := positives,
        explanation := generateExplanation ("moderate") targetGroup warnings positives,
        severityScore := some severityScore, targetGroup := targetGroup }
    else
      { suitability := "Good Choice", warnings := warnings, positives := positives,
        explanation := generateExplanation ("good") targetGroup warnings positives,
        severityScore := some severityScore, targetGroup := targetGroup }

/-! ## Helper lemmas -/

attribute [local semireducible] Rat.add Rat.mul Rat.sub Rat.inv Rat.ofScientific

theorem mem_insertSorted {le : α → α → Bool} {a x : α} :
    ∀ {l : List α}, x ∈ insertSorted le a l ↔ x = a ∨ x ∈ l
  | [] => by simp [insertSorted]
  | b :: l => by
    unfold insertSorted
    split
    · simp [or_comm, or_assoc, List.mem_cons]
    · simp [List.mem_cons, @mem_insertSorted _ le a x l]
      tauto

theorem perm_insertSorted (le : α → α → Bool) (a : α) :
    ∀ l : List α, List.Perm (insertSorted le a l) (a :: l)
  | [] => List.Perm.refl _
  | b :: l => by
    unfold insertSorted
    split
    · exact List.Perm.refl _
    · exact ((perm_insertSorted le a l).cons b).trans (List.Perm.swap a b l)

theorem perm_stableSort (le : α → α → Bool) : ∀ l : List α, List.Perm (stableSort le l) l
  | [] => List.Perm.refl _
  | a :: l =>
    (perm_insertSorted le a (stableSort le l)).trans ((perm_stableSort le l).cons a)

theorem countP_stableSort (le : α → α → Bool) (p : α → Bool) (l : List α) :
    (stableSort le l).countP p = l.countP p :=
  (perm_stableSort le l).countP_eq p

theorem mem_stableSort {le : α → α → Bool} {x : α} {l : List α} :
    x ∈ stableSort le l ↔ x ∈ l :=
  (perm_stableSort le l).mem_iff

theorem pairwise_insertSorted {le : α → α → Bool}
    (trans : ∀ a b c, le a b = true → le b c = true → le a c = true)
    (total : ∀ a b, le a b = true ∨ le b a = true) (a : α) :
    ∀ {l : List α}, l.Pairwise (fun x y => le x y = true) →
      (insertSorted le a l).Pairwise (fun x y => le x y = true)
  | [], _ => by simp [insertSorted]
  | b :: l, h => by
    unfold insertSorted
    rcases List.pairwise_cons.mp h with ⟨hb, hl⟩
    split
    · rename_i hab
      exact List.pairwise_cons.mpr ⟨fun x hx => by
          rcases List.mem_cons.mp hx with rfl | hx
          · exact hab
          · exact trans a b x hab (hb x hx), h⟩
    · rename_i hab
      have hba : le b a = true := (total a b).resolve_left (by simpa using hab)
      refine List.pairwise_cons.mpr ⟨fun x hx => ?_, pairwise_insertSorted trans total a hl⟩
      rcases mem_insertSorted.mp hx with rfl | hx
      · exact hba
      · exact hb x hx

theorem pairwise_stableSort {le : α → α → Bool}
    (trans : ∀ a b c, le a b = true → le b c = true → le a c = true)
    (total : ∀ a b, le a b = true ∨ le b a = true) :
    ∀ l : List α, (stableSort le l).Pairwise (fun x y => le x y = true)
  | [] => List.Pairwise.nil
  | a :: l => pairwise_insertSorted trans total a (pairwise_stableSort trans total l)

theorem filter_insertSorted_pos {le : α → α → Bool} {p : α → Bool}
    (hkey : ∀ a b, p a = true → p b = true → le a b = true) {a : α} (ha : p a = true) :
    ∀ l : List α, (insertSorted le a l).filter p = a :: l.filter p
  | [] => by simp [insertSorted, ha]
  | b :: l => by
    unfold insertSorted
    split
    · simp [List.filter_cons, ha]
    · rename_i hab
      have hpb : p b = false := by
        cases hb : p b
        · rfl
        · exact absurd (hkey a b ha hb) (by simpa using hab)
      simp [List.filter_cons, hpb, filter_insertSorted_pos hkey ha l]

theorem filter_insertSorted_neg {le : α → α → Bool} {p : α → Bool} {a : α}
    (ha : p a = false) :
    ∀ l : List α, (insertSorted le a l).filter p = l.filter p
  | [] => by simp [insertSorted, ha]
  | b :: l => by
    unfold insertSorted
    split
    · simp [List.filter_cons, ha]
    · simp [List.filter_cons, filter_insertSorted_neg ha l]

/-- Stability of `stableSort`: elements whose key is tied (so that `le`
holds both ways between them, here: any two elements satisfying `p`)
appear in the output in input order — their `filter` is unchanged. -/
theorem filter_stableSort {le : α → α → Bool} {p : α → Bool}
    (hkey : ∀ a b, p a = true → p b = true → le a b = true) :
    ∀ l : List α, (stableSort le l).filter p = l.filter p
  | [] => rfl
  | a :: l => by
    unfold stableSort
    cases ha : p a
    · rw [filter_insertSorted_neg ha, filter_stableSort hkey l, List.filter_cons, ha]
      simp
    · rw [filter_insertSorted_pos hkey ha, filter_stableSort hkey l, List.filter_cons, ha]
      simp

theorem countP_if_singleton (c : Prop) [Decidable c] (a : α) (p : α → Bool) :
    (if c then [a] else []).countP p = if c then (if p a then 1 else 0) else 0 := by
  split_ifs with h₁ h₂ <;> simp_all [List.countP_cons]

theorem mem_if_singleton {c : Prop} [Decidable c] {a x : α} :
    (x ∈ if c then [a] else []) ↔ c ∧ x = a := by
  split_ifs with h <;> simp [h]

theorem round_mono_rat {x y : ℚ} (h : x ≤ y) : round x ≤ round y := by
  rw [round_eq, round_eq]
  exact Int.floor_le_floor (by linarith)

/-! ## Claim theorems -/

/-- **C1.** For every nutrition input (including extreme values such as
calories=900, sugar=100, fat=80, salt=10, protein=0, fiber=0) and every
options value, `calculateHealthScore` returns a score that is an integer
(the `score` field has type `ℤ`, produced by `Math.round`) with
`0 ≤ score ≤ 100`. -/
theorem claim_C1 (nutrition : Nutrition) (options : ScoreOptions) :
    0 ≤ (calculateHealthScore nutrition options).score ∧
      (calculateHealthScore nutrition options).score ≤ 100 := by
  unfold calculateHealthScore clampedScoreOf
  exact ⟨le_max_left 0 _, max_le (by norm_num) (min_le_left _ _)⟩

theorem calculateHealthScore_penalties (nutrition : Nutrition) (options : ScoreOptions) :
    (calculateHealthScore nutrition options).penalties =
      (generateRecommendation (clampedScoreOf (normalizeForScore nutrition) options.isDiabetic)
        (normalizeForScore nutrition)
        (scorePenalties (normalizeForScore nutrition) options.isDiabetic)
        (scoreRewards (normalizeForScore nutrition)) options.isDiabetic).2 := rfl

theorem calculateHealthScore_recommendation (nutrition : Nutrition) (options : ScoreOptions) :
    (calculateHealthScore nutrition options).recommendation =
      (generateRecommendation (clampedScoreOf (normalizeForScore nutrition) options.isDiabetic)
        (normalizeForScore nutrition)
        (scorePenalties (normalizeForScore nutrition) options.isDiabetic)
        (scoreRewards (normalizeForScore nutrition)) options.isDiabetic).1 := rfl

theorem calculateHealthScore_score (nutrition : Nutrition) (options : ScoreOptions) :
    (calculateHealthScore nutrition options).score =
      clampedScoreOf (normalizeForScore nutrition) options.isDiabetic := rfl

theorem generateRec_snd_countP (score : ℤ) (n : NormNutrition) (pens : List Penalty)
    (rews : List Reward) (d : Bool) (p : Penalty → Bool) :
    ((generateRecommendation score n pens rews d).2).countP p = pens.countP p := by
  unfold generateRecommendation
  split_ifs <;> simp [countP_stableSort]

theorem generateRec_snd_mem {score : ℤ} {n : NormNutrition} {pens : List Penalty}
    {rews : List Reward} {d : Bool} {x : Penalty} :
    x ∈ (generateRecommendation score n pens rews d).2 ↔ x ∈ pens := by
  unfold generateRecommendation
  split_ifs <;> simp [mem_stableSort]

theorem countP_scorePenalties_sugar (n : NormNutrition) (d : Bool) :
    (scorePenalties n d).countP (fun p => p.type == "sugar") =
      if 5 < n.sugar then 1 else 0 := by
  unfold scorePenalties
  simp only [List.countP_append, countP_if_singleton]
  simp

theorem penalty_sugar_of_mem {n : NormNutrition} {d : Bool} {p : Penalty}
    (hp : p ∈ scorePenalties n d) (ht : p.type = "sugar") :
    p.penalty = sugarPenaltyOf n.sugar d := by
  unfold scorePenalties at hp
  simp only [List.mem_append, mem_if_singleton] at hp
  rcases hp with ((((⟨-, rfl⟩ | ⟨-, rfl⟩) | ⟨-, rfl⟩) | ⟨-, rfl⟩) | ⟨-, rfl⟩) | ⟨-, rfl⟩ <;>
    first
      | rfl
      | exact absurd ht (by simp)

/-- The source's tiered-then-multiplied-then-capped sugar penalty equals
the specification's piecewise-linear formula, for every sugar value. -/
theorem sugarPenaltyOf_eq_spec (s : ℚ) (d : Bool) :
    sugarPenaltyOf s d = sugarPenaltySpec s d := by
  have hbase : sugarPenaltyBase (s - 5) =
      1.5 * min (s - 5) 5 + 1.0 * min (max (s - 5 - 5) 0) 10 + 0.8 * max (s - 5 - 15) 0 := by
    unfold sugarPenaltyBase
    split_ifs with h1 h2
    · rw [min_eq_left h1, max_eq_right (by linarith), min_eq_left (by norm_num),
        max_eq_right (by linarith)]
      ring
    · rw [min_eq_right (by linarith), max_eq_left (by linarith), min_eq_left (by linarith),
        max_eq_right (by linarith)]
      ring
    · rw [min_eq_right (by linarith), max_eq_left (by linarith), min_eq_right (by linarith),
        max_eq_left (by linarith)]
      ring
  unfold sugarPenaltyOf sugarPenaltySpec
  cases d
  · simp [hbase]
  · simp [hbase]
    ring_nf

/-- **C2.** In `calculateHealthScore`, a sugar penalty entry is produced
exactly when the (normalized) sugar exceeds 5 g — note `sugar > 5` and
`max 0 sugar > 5` are equivalent — and its magnitude equals the
specification's piecewise-linear formula (`sugarPenaltySpec`): rate 1.5
on the first 5 g of excess, 1.0 on the next 10 g, 0.8 beyond, times 1.5
when diabetic, capped at 30.  When sugar ≤ 5 the count is 0: no entry,
so nothing is subtracted for sugar. -/
theorem claim_C2 (nutrition : Nutrition) (options : ScoreOptions) :
    (calculateHealthScore nutrition options).penalties.countP (fun p => p.type == "sugar") =
        (if 5 < max 0 nutrition.sugar then 1 else 0) ∧
      ∀ p ∈ (calculateHealthScore nutrition options).penalties, p.type = "sugar" →
        p.penalty = sugarPenaltySpec (max 0 nutrition.sugar) options.isDiabetic := by
  constructor
  · rw [calculateHealthScore_penalties, generateRec_snd_countP, countP_scorePenalties_sugar]
    rfl
  · intro p hp ht
    rw [calculateHealthScore_penalties] at hp
    have hp' := generateRec_snd_mem.mp hp
    rw [penalty_sugar_of_mem hp' ht, ← sugarPenaltyOf_eq_spec]
    rfl

/-- Witness for C2 at sugar = 12, diabetic: exactly one sugar entry, and
its magnitude matches the specification formula. -/
theorem claim_C2_witness :
    (calculateHealthScore { sugar := 12 } { isDiabetic := true }).penalties.countP
        (fun p => p.type == "sugar") = 1 ∧
      (calculateHealthScore { sugar := 12 } { isDiabetic := true }).penalties.headI.penalty =
        sugarPenaltySpec (max 0 (12 : ℚ)) true := by
  constructor
  · rw [(claim_C2 { sugar := 12 } { isDiabetic := true }).1]
    norm_num
  · exact (claim_C2 { sugar := 12 } { isDiabetic := true }).2 _ (by decide) (by decide)

/-- **C3.** For every nutrition input and every diabetic options value,
the list returned by `generateDiabeticWarnings` is stably sorted
ascending by severity priority number (Critical=1 … Safe=5): it is
pairwise `priority ≤ priority` (hence `warnings[i].priority ≤
warnings[i+1].priority` for every adjacent pair), and for every priority
value the entries carrying it appear exactly as in the insertion-order
list `diabeticWarningsUnsorted`, i.e. ties keep insertion order. -/
theorem claim_C3 (nutrition : Nutrition) (options : DiabeticOptions) :
    (generateDiabeticWarnings nutrition options).Pairwise
        (fun a b => a.priority ≤ b.priority) ∧
      ∀ k : Nat, (generateDiabeticWarnings nutrition options).filter
            (fun w => w.priority == k) =
          (if options.isDiabetic then
            diabeticWarningsUnsorted nutrition options.diabeticType
           else []).filter (fun w => w.priority == k) := by
  unfold generateDiabeticWarnings
  cases hd : options.isDiabetic
  · simp
  · simp only [Bool.not_true, if_pos, if_neg, Bool.false_eq_true, not_false_iff, ite_true,
      ite_false, Bool.not_eq_true']
    constructor
    · refine List.Pairwise.imp (fun h => of_decide_eq_true h) ?_
      exact pairwise_stableSort
        (fun a b c hab hbc => by
          simp only [decide_eq_true_eq] at *
          omega)
        (fun a b => by
          rcases Nat.le_total a.priority b.priority with h | h
          · exact Or.inl (by simpa using h)
          · exact Or.inr (by simpa using h)) _
    · intro k
      refine filter_stableSort (fun a b ha hb => ?_) _
      have ha' : a.priority = k := by simpa using ha
      have hb' : b.priority = k := by simpa using hb
      simp [ha', hb']

/-- **C4.** For every nutrition record and every product whose
(lower-cased) ingredients text or name contains a term of the target
group's denylist, `evaluateFoodForPopulation` short-circuits to `Avoid`
with severity score 100 regardless of the nutrient values: the warnings
list holds only the denylist-match message (of the first matching term)
and the positives list is empty — no further check contributes. -/
theorem claim_C4 (nutrition : Nutrition) (targetGroup : TargetGroup)
    (productData : ProductData)
    (h : ∃ term ∈ avoidListFor targetGroup,
      strContains (strLower productData.ingredients) (strLower term) = true ∨
        strContains (strLower productData.name) (strLower term) = true) :
    (evaluateFoodForPopulation nutrition targetGroup productData).suitability = "Avoid" ∧
      (evaluateFoodForPopulation nutrition targetGroup productData).severityScore = some 100 ∧
      (evaluateFoodForPopulation nutrition targetGroup productData).positives = [] ∧
      ∃ term ∈ avoidListFor targetGroup,
        (strContains (strLower productData.ingredients) (strLower term) = true ∨
          strContains (strLower productData.name) (strLower term) = true) ∧
        (evaluateFoodForPopulation nutrition targetGroup productData).warnings =
          [strictAvoidMessage targetGroup term] := by
  obtain ⟨term, hmem, hterm⟩ := h
  have hsome : ((avoidListFor targetGroup).find? (fun avoided =>
      strContains (strLower productData.ingredients) (strLower avoided) ||
        strContains (strLower productData.name) (strLower avoided))).isSome := by
    rw [List.find?_isSome]
    refine ⟨term, hmem, ?_⟩
    rcases hterm with h' | h' <;> simp [h']
  obtain ⟨a, ha⟩ := Option.isSome_iff_exists.mp hsome
  have hamem : a ∈ avoidListFor targetGroup := List.mem_of_find?_eq_some ha
  have hpa := List.find?_some ha
  unfold evaluateFoodForPopulation findStrictlyAvoided
  rw [ha]
  exact ⟨rfl, rfl, rfl, a, hamem, by simpa using hpa, rfl⟩

/-- Witness for C4: a pregnant-group product whose ingredients text
contains "ALCOHOL" is `Avoid`/100 with only the match message, despite
otherwise severe nutrient values. -/
theorem claim_C4_witness :
    (evaluateFoodForPopulation { sugar := 30, salt := 2 } TargetGroup.pregnant
        { ingredients := "water, ALCOHOL, sugar" }).suitability = "Avoid" ∧
      (evaluateFoodForPopulation { sugar := 30, salt := 2 } TargetGroup.pregnant
        { ingredients := "water, ALCOHOL, sugar" }).severityScore = some 100 ∧
      (evaluateFoodForPopulation { sugar := 30, salt := 2 } TargetGroup.pregnant
        { ingredients := "water, ALCOHOL, sugar" }).positives = [] ∧
      (evaluateFoodForPopulation { sugar := 30, salt := 2 } TargetGroup.pregnant
        { ingredients := "water, ALCOHOL, sugar" }).warnings =
        ["Contains alcohol - strictly not recommended for pregnancy"] := by
  have h := claim_C4 { sugar := 30, salt := 2 } TargetGroup.pregnant
    { ingredients := "water, ALCOHOL, sugar" }
    ⟨"alcohol", by decide, Or.inl (by decide)⟩
  exact ⟨h.1, h.2.1, h.2.2.1, by decide⟩

theorem countP_generateDiabeticWarnings (nutrition : Nutrition) (t : String)
    (p : DWarning → Bool) :
    (generateDiabeticWarnings nutrition { isDiabetic := true, diabeticType := t }).countP p =
      (diabeticWarningsUnsorted nutrition t).countP p := by
  unfold generateDiabeticWarnings
  simp [countP_stableSort]

/-- **C5.** When diabetic, `generateDiabeticWarnings` produces exactly
one sugar-specific entry per band — critical when sugar > 20, high when
15 < sugar ≤ 20, moderate when 10 < sugar ≤ 15, low/notice when
5 < sugar ≤ 10, safe when sugar ≤ 3 — and exactly zero sugar-specific
entries when 3 < sugar ≤ 5 (the gap of the `else if` chain), stated as
occurrence counts so the final sorting cannot hide duplicates. -/
theorem claim_C5 (nutrition : Nutrition) (t : String) :
    ((generateDiabeticWarnings nutrition { isDiabetic := true, diabeticType := t }).countP
        (fun w => w.type == "sugar_critical") =
      if 20 < nutrition.sugar then 1 else 0) ∧
    ((generateDiabeticWarnings nutrition { isDiabetic := true, diabeticType := t }).countP
        (fun w => w.type == "sugar_high") =
      if 15 < nutrition.sugar ∧ nutrition.sugar ≤ 20 then 1 else 0) ∧
    ((generateDiabeticWarnings nutrition { isDiabetic := true, diabeticType := t }).countP
        (fun w => w.type == "sugar_moderate") =
      if 10 < nutrition.sugar ∧ nutrition.sugar ≤ 15 then 1 else 0) ∧
    ((generateDiabeticWarnings nutrition { isDiabetic := true, diabeticType := t }).countP
        (fun w => w.type == "sugar_low") =
      if 5 < nutrition.sugar ∧ nutrition.sugar ≤ 10 then 1 else 0) ∧
    ((generateDiabeticWarnings nutrition { isDiabetic := true, diabeticType := t }).countP
        (fun w => w.type == "sugar_safe") =
      if nutrition.sugar ≤ 3 then 1 else 0) ∧
    ((generateDiabeticWarnings nutrition { isDiabetic := true, diabeticType := t }).countP
        (fun w => (["sugar_critical", "sugar_high", "sugar_moderate", "sugar_low",
          "sugar_safe"] : List String).contains w.type) =
      if 3 < nutrition.sugar ∧ nutrition.sugar ≤ 5 then 0 else 1) := by
  refine ⟨?_, ?_, ?_, ?_, ?_, ?_⟩ <;>
    · rw [countP_generateDiabeticWarnings]
      unfold diabeticWarningsUnsorted sugarBandWarnings carbWarning comboWarning
        calorieWarning saltWarning fiberPositive proteinPositive idealPositive type1Warning
      simp only [List.countP_append, countP_if_singleton, apply_ite (List.countP _),
        List.countP_cons, List.countP_nil, List.contains_cons]
      simp
      try (split_ifs <;> first
        | rfl
        | simp
        | (exfalso; first | linarith | simp_all))

theorem dvTarget_pos (options : DVOptions) (nutrient : NutrientName) :
    0 < dvTargetOf (dvReferenceFor options) nutrient := by
  unfold dvReferenceFor
  split_ifs <;> cases nutrient <;>
    norm_num [dvTargetOf, dvMale, dvFemale, dvPregnant, dvAthleteMale, dvAthleteFemale]

theorem dvCategoryRank_mono (nutrient : NutrientName) {p₁ p₂ : ℤ} (h : p₁ ≤ p₂) :
    dvCategoryRank nutrient (categorizeDailyValue p₁ nutrient).name ≤
      dvCategoryRank nutrient (categorizeDailyValue p₂ nutrient).name := by
  unfold dvCategoryRank categorizeDailyValue
  cases hpos : isPositiveNutrient nutrient <;>
    simp only [hpos, Bool.false_eq_true, if_true, if_false] <;>
    split_ifs <;>
    simp [posCategoryRank, negCategoryRank] <;>
    omega

/-- **C6, counterexample.** At calories=300, sugar=15 the final score is
83 — inside the claimed [55, 84] band — and the penalty list is
nonempty, yet the recommendation is the fixed good-choice text of the
source's `score >= 70` branch and does not cite the two largest
penalties: the claim "for score in [55,84] the text cites the two
largest-magnitude penalties" fails on the code. -/
theorem claim_C6_counterexample :
    (55 ≤ (calculateHealthScore { calories := 300, sugar := 15 } {}).score ∧
      (calculateHealthScore { calories := 300, sugar := 15 } {}).score ≤ 84) ∧
      (calculateHealthScore { calories := 300, sugar := 15 } {}).penalties ≠ [] ∧
      (calculateHealthScore { calories := 300, sugar := 15 } {}).recommendation =
        "Good choice! A nutritious option that fits well in a balanced diet. Enjoy in moderation." ∧
      (calculateHealthScore { calories := 300, sugar := 15 } {}).recommendation ≠
        "Fair choice. Watch out for " ++ String.intercalate (" and ")
          (((stableSort (fun a b => decide (b.penalty ≤ a.penalty))
              ((calculateHealthScore { calories := 300, sugar := 15 } {}).penalties)).take 2).map
            (fun p => p.type)) ++
          " content. Consider healthier alternatives when possible." := by
  exact ⟨⟨by decide, by decide⟩, by decide, by decide, by decide⟩

/-- **C6, amended.** For every input whose final clamped score lies in
[55, 69], the recommendation text cites the two largest-magnitude
penalties; for every input whose final clamped score is below 55, it
cites all penalties of magnitude greater than 10.  (The counterexample
forces narrowing the claim's [55, 84] band to [55, 69].)  The cited
pair really is the two largest: the descending stable sort is a
permutation of the penalty list and every dropped penalty is bounded by
every kept one. -/
theorem claim_C6_amended (nutrition : Nutrition) (options : ScoreOptions) :
    (55 ≤ (calculateHealthScore nutrition options).score →
      (calculateHealthScore nutrition options).score < 70 →
      ((calculateHealthScore nutrition options).recommendation =
        "Fair choice. Watch out for " ++ String.intercalate (" and ")
          (((stableSort (fun a b => decide (b.penalty ≤ a.penalty))
              (scorePenalties (normalizeForScore nutrition) options.isDiabetic)).take 2).map
            (fun p => p.type)) ++
          " content. Consider healthier alternatives when possible.") ∧
      List.Perm
        (stableSort (fun a b => decide (b.penalty ≤ a.penalty))
          (scorePenalties (normalizeForScore nutrition) options.isDiabetic))
        (scorePenalties (normalizeForScore nutrition) options.isDiabetic) ∧
      ∀ p ∈ (stableSort (fun a b => decide (b.penalty ≤ a.penalty))
          (scorePenalties (normalizeForScore nutrition) options.isDiabetic)).take 2,
        ∀ q ∈ (stableSort (fun a b => decide (b.penalty ≤ a.penalty))
          (scorePenalties (normalizeForScore nutrition) options.isDiabetic)).drop 2,
          q.penalty ≤ p.penalty) ∧
    ((calculateHealthScore nutrition options).score < 55 →
      (calculateHealthScore nutrition options).recommendation =
        "⚠️ Not recommended for regular consumption. High in " ++ String.intercalate (", ")
          (((scorePenalties (normalizeForScore nutrition) options.isDiabetic).filter
            (fun p => decide (10 < p.penalty))).map (fun p => p.type)) ++ ". " ++
          (if options.isDiabetic then "Not suitable for diabetic diet."
           else "Choose healthier alternatives.")) := by
  rw [calculateHealthScore_score, calculateHealthScore_recommendation]
  constructor
  · intro h55 h70
    unfold generateRecommendation
    rw [if_neg (by omega), if_neg (by omega), if_pos h55]
    refine ⟨rfl, perm_stableSort _ _, ?_⟩
    have hp := @pairwise_stableSort Penalty
      (fun a b => decide (b.penalty ≤ a.penalty))
      (fun a b c hab hbc => by
        simp only [decide_eq_true_eq] at *
        linarith)
      (fun a b => by
        rcases le_total b.penalty a.penalty with h | h
        · exact Or.inl (by simpa using h)
        · exact Or.inr (by simpa using h))
      (scorePenalties (normalizeForScore nutrition) options.isDiabetic)
    rw [← List.take_append_drop 2
      (stableSort (fun a b => decide (b.penalty ≤ a.penalty))
        (scorePenalties (normalizeForScore nutrition) options.isDiabetic))] at hp
    intro p hptake q hqdrop
    simpa using (List.pairwise_append.mp hp).2.2 p hptake q hqdrop
  · intro h55
    unfold generateRecommendation
    rw [if_neg (by omega), if_neg (by omega), if_neg (by omega)]

/-- Witness for the amended C6 at two inputs: calories=450, sugar=20
scores 62 (fair band, cites "sugar and calories"), and calories=600,
sugar=40, fat=35, salt=2 scores 11 (cites all four penalties above
magnitude 10). -/
theorem claim_C6_amended_witness :
    (55 ≤ (calculateHealthScore { calories := 450, sugar := 20 } {}).score ∧
      (calculateHealthScore { calories := 450, sugar := 20 } {}).score < 70 ∧
      (calculateHealthScore { calories := 450, sugar := 20 } {}).recommendation =
        "Fair choice. Watch out for sugar and calories content. Consider healthier alternatives when possible.") ∧
      ((calculateHealthScore { calories := 600, sugar := 40, fat := 35, salt := 2 } {}).score < 55 ∧
        (calculateHealthScore { calories := 600, sugar := 40, fat := 35, salt := 2 } {}).recommendation =
          "⚠️ Not recommended for regular consumption. High in calories, sugar, fat, salt. Choose healthier alternatives.") := by
  refine ⟨⟨by decide, by decide, ?_⟩, by decide, ?_⟩
  · exact (((claim_C6_amended { calories := 450, sugar := 20 } {}).1
      (by decide) (by decide)).1).trans (by decide)
  · exact ((claim_C6_amended { calories := 600, sugar := 40, fat := 35, salt := 2 } {}).2
      (by decide)).trans (by decide)

/-- **C7.** For a fixed options value and a fixed nutrient, the daily
value categorization of `calculateDailyValue` is monotone in the
nutrient value: for protein/fiber the category rank (Low < Moderate <
High < Excellent) never decreases, and for sugar/fat/salt/calories the
severity rank (Very Low < Low < Moderate < High < Very High) never
decreases — `dvCategoryRank` selects the matching rank by polarity. -/
theorem claim_C7 (nutrient : NutrientName) (options : DVOptions) (v₁ v₂ : ℚ)
    (h : v₁ ≤ v₂) :
    dvCategoryRank nutrient (calculateDailyValue v₁ nutrient options).category ≤
      dvCategoryRank nutrient (calculateDailyValue v₂ nutrient options).category := by
  have ht := dvTarget_pos options nutrient
  have hpct : round (v₁ / dvTargetOf (dvReferenceFor options) nutrient * 100) ≤
      round (v₂ / dvTargetOf (dvReferenceFor options) nutrient * 100) := by
    apply round_mono_rat
    gcongr
  simp only [calculateDailyValue]
  exact dvCategoryRank_mono nutrient hpct

/-- Witness for C7: raising sugar from 2 g to 20 g (male standard
profile) does not decrease its severity rank. -/
theorem claim_C7_witness :
    (2 : ℚ) ≤ 20 ∧
      dvCategoryRank NutrientName.sugar
          (calculateDailyValue 2 NutrientName.sugar {}).category ≤
        dvCategoryRank NutrientName.sugar
          (calculateDailyValue 20 NutrientName.sugar {}).category :=
  ⟨by norm_num, claim_C7 NutrientName.sugar {} 2 20 (by norm_num)⟩

/-- **C8.** For every nutrition input, `generateDiabeticWarnings` with
`isDiabetic` false — or absent, `false` being the declared default —
returns the empty list (the guard returns before any computation on the
nutrition values). -/
theorem claim_C8 (nutrition : Nutrition) (t : String) :
    generateDiabeticWarnings nutrition { isDiabetic := false, diabeticType := t } = [] ∧
      generateDiabeticWarnings nutrition {} = [] :=
  ⟨rfl, rfl⟩

/-- **C9.** When the nutrition record's `carbs` field is absent or `0`
(the source's `nutrition.carbs || (nutrition.sugar || 0)` treats both
alike), the engine's carbohydrate value equals the sugar value: the
high-carbohydrate warning (carbs > 50) is produced exactly when
sugar > 50, and the Type-1-specific entry's detail text reports the
sugar value as the estimated carbs. -/
theorem claim_C9 (nutrition : Nutrition) (t : String) (hc : nutrition.carbs = 0) :
    ((generateDiabeticWarnings nutrition { isDiabetic := true, diabeticType := t }).countP
        (fun w => w.type == "carb_high") =
      if 50 < nutrition.sugar then 1 else 0) ∧
    (t = "type1" → 10 < nutrition.sugar →
      (generateDiabeticWarnings nutrition { isDiabetic := true, diabeticType := t }).countP
          (fun w => w.type == "type1_specific" &&
            w.detail == ("Estimated carbs: " ++ toFixedStr 0 nutrition.sugar ++
              "g - Consult carb counting guide")) = 1) := by
  have hcarbs : carbsOf nutrition = nutrition.sugar := by
    unfold carbsOf
    rw [if_pos hc]
  constructor
  · rw [countP_generateDiabeticWarnings]
    unfold diabeticWarningsUnsorted sugarBandWarnings carbWarning comboWarning
      calorieWarning saltWarning fiberPositive proteinPositive idealPositive type1Warning
    rw [hcarbs]
    simp only [List.countP_append, countP_if_singleton, apply_ite (List.countP _),
      List.countP_cons, List.countP_nil]
    simp
  · intro ht hs
    rw [countP_generateDiabeticWarnings]
    unfold diabeticWarningsUnsorted sugarBandWarnings carbWarning comboWarning
      calorieWarning saltWarning fiberPositive proteinPositive idealPositive type1Warning
    rw [hcarbs, ht]
    simp only [List.countP_append, countP_if_singleton, apply_ite (List.countP _),
      List.countP_cons, List.countP_nil]
    simp [hs]

/-- Witness for C9 at sugar = 55, carbs absent, Type 1: the carb warning
fires (55 > 50) and the Type-1 entry reports 55 g estimated carbs. -/
theorem claim_C9_witness :
    ((generateDiabeticWarnings { sugar := 55 }
        { isDiabetic := true, diabeticType := "type1" }).countP
      (fun w => w.type == "carb_high") = 1) ∧
    ((generateDiabeticWarnings { sugar := 55 }
        { isDiabetic := true, diabeticType := "type1" }).countP
      (fun w => w.type == "type1_specific" &&
        w.detail == ("Estimated carbs: " ++ toFixedStr 0 (55 : ℚ) ++
          "g - Consult carb counting guide")) = 1) := by
  constructor
  · rw [(claim_C9 { sugar := 55 } "type1" rfl).1]
    norm_num
  · exact (claim_C9 { sugar := 55 } "type1" rfl).2 rfl (by norm_num)

/-- **C10.** For every nutrition input, `assessDiabeticRisk` with
`isDiabetic` false returns exactly `{risk := "not_applicable", score := 0}`
(the `recommendation` and `severity` fields of the diabetic branch are
absent) without inspecting the nutrition values, and with `isDiabetic`
true the returned label is one of the five risk labels. -/
theorem claim_C10 (nutrition : Nutrition) :
    assessDiabeticRisk nutrition false =
        { risk := "not_applicable", score := 0, recommendation := none, severity := none } ∧
      (assessDiabeticRisk nutrition true).risk ∈
        (["critical", "high", "moderate", "low", "safe"] : List String) := by
  constructor
  · rfl
  · show (riskBandOf _).1 ∈ _
    unfold riskBandOf
    split_ifs <;> simp

end NutraVue
